import Mathlib

/-!
Shallow embedding of `tools/build_addon_package.py` from the
Beautify-Anki packaging utility, together with proofs about its
file-selection policy, manifest validation and build/verify pipeline.

The Python program has three parts:
* `tracked_files`   — filters the git-tracked path list and checks mandatory files;
* `validate_manifest` — type- and value-checks the parsed `manifest.json` document;
* `build` / `main`  — creates the output directory, writes the archive, verifies it,
  and prints a summary line.

External effects are made explicit: the git listing becomes an input list of
lines, the filesystem becomes a `String → List Nat` byte function, and the
archive becomes a list of `(entry name, bytes)` pairs.
-/

deriving instance DecidableEq for Except

namespace BeautifyAnki

/-- JSON values as produced by Python `json.loads`: null, booleans, ints,
floats, strings, lists and objects.  The float payload is abstracted to an
`Int` tag because the validator only ever inspects a float value by type. -/
inductive JVal : Type
  | jnull : JVal
  | jbool : Bool → JVal
  | jint : Int → JVal
  | jfloat : Int → JVal
  | jstr : String → JVal
  | jlist : List JVal → JVal
  | jobj : List (String × JVal) → JVal
deriving Repr

/-- A parsed JSON object, as an association list of key/value pairs. -/
def Manifest : Type := List (String × JVal)

/-- First-match key lookup in a JSON object, modelling `data[key]` /
`key in data` on a Python dict. -/
def jlookup : List (String × JVal) → String → Option JVal
  | [], _ => none
  | (k, v) :: rest, key => if k = key then some v else jlookup rest key

/-- Python `isinstance(x, str)`. -/
def isinstance_str : JVal → Bool
  | JVal.jstr _ => true
  | _ => false

/-- Python `isinstance(x, list)`. -/
def isinstance_list : JVal → Bool
  | JVal.jlist _ => true
  | _ => false

/-- Python `isinstance(x, int)`: `bool` is a subclass of `int`, so booleans
pass this check; floats do not. -/
def isinstance_int : JVal → Bool
  | JVal.jint _ => true
  | JVal.jbool _ => true
  | _ => false

/-- The integer value Python arithmetic sees: `True` is `1`, `False` is `0`.
Only ever applied to values that passed `isinstance_int`. -/
def intVal : JVal → Int
  | JVal.jint n => n
  | JVal.jbool b => if b then 1 else 0
  | _ => 0

/-- The underlying string of a string value (only applied to strings). -/
def strVal : JVal → String
  | JVal.jstr s => s
  | _ => ""

/-- Drop leading characters satisfying `p`. -/
def dropLeading (p : Char → Bool) : List Char → List Char
  | [] => []
  | c :: cs => if p c then dropLeading p cs else c :: cs

/-- Python `str.strip()`: remove whitespace from both ends. -/
def pyStrip (s : String) : String :=
  String.mk (dropLeading Char.isWhitespace
    ((dropLeading Char.isWhitespace s.data.reverse).reverse))

/-- Whether the first char list is an initial segment of the second. -/
def isPre : List Char → List Char → Bool
  | [], _ => true
  | _ :: _, [] => false
  | a :: as, b :: bs => a = b && isPre as bs

/-- Python `s.startswith(p)`. -/
def pyStartswith (s p : String) : Bool := isPre p.data s.data

/-- Lexicographic comparison of char lists by code point, as Python compares
strings. -/
def charsLe : List Char → List Char → Bool
  | [], _ => true
  | _ :: _, [] => false
  | a :: as, b :: bs =>
    if a.toNat = b.toNat then charsLe as bs else decide (a.toNat < b.toNat)

/-- Python string `<=`. -/
def strLe (a b : String) : Bool := charsLe a.data b.data

/-- `strLe` as a relation, used as the order for Python `sorted`. -/
def strLeP (a b : String) : Prop := strLe a b = true

instance : DecidableRel strLeP := fun a b => decEq (strLe a b) true

theorem charsLe_trans : ∀ (xs ys zs : List Char),
    charsLe xs ys = true → charsLe ys zs = true → charsLe xs zs = true
  | [], _, _, _, _ => by simp [charsLe]
  | _ :: _, [], _, h1, _ => by simp [charsLe] at h1
  | _ :: _, _ :: _, [], _, h2 => by simp [charsLe] at h2
  | a :: as, b :: bs, c :: cs, h1, h2 => by
    simp only [charsLe] at h1 h2 ⊢
    by_cases hab : a.toNat = b.toNat
    · rw [if_pos hab] at h1
      by_cases hbc : b.toNat = c.toNat
      · rw [if_pos hbc] at h2
        rw [if_pos (hab.trans hbc)]
        exact charsLe_trans as bs cs h1 h2
      · rw [if_neg hbc, decide_eq_true_eq] at h2
        rw [if_neg (by omega), decide_eq_true_eq]
        omega
    · rw [if_neg hab, decide_eq_true_eq] at h1
      by_cases hbc : b.toNat = c.toNat
      · rw [if_pos hbc] at h2
        rw [if_neg (by omega), decide_eq_true_eq]
        omega
      · rw [if_neg hbc, decide_eq_true_eq] at h2
        rw [if_neg (by omega), decide_eq_true_eq]
        omega

theorem charsLe_total : ∀ (xs ys : List Char),
    charsLe xs ys = true ∨ charsLe ys xs = true
  | [], _ => Or.inl (by simp [charsLe])
  | _ :: _, [] => Or.inr (by simp [charsLe])
  | a :: as, b :: bs => by
    simp only [charsLe]
    by_cases hab : a.toNat = b.toNat
    · rw [if_pos hab, if_pos hab.symm]
      exact charsLe_total as bs
    · rw [if_neg hab, if_neg (fun h => hab h.symm),
        decide_eq_true_eq, decide_eq_true_eq]
      omega

instance : IsTrans String strLeP :=
  ⟨fun a b c h1 h2 => charsLe_trans a.data b.data c.data h1 h2⟩

instance : IsTotal String strLeP :=
  ⟨fun a b => charsLe_total a.data b.data⟩

/-- Python `sorted` on a list of strings. -/
def pySorted (xs : List String) : List String := xs.insertionSort strLeP

/-- Directory prefixes excluded from packaging. -/
def excluded_prefixes : List String := [".github/", "screenshots/", "ads/", "dist/"]

/-- Exact paths excluded from packaging (the tool itself). -/
def excluded_files : List String := ["tools/build_addon_package.py"]

/-- The mandatory package files, in the order of the verification loop. -/
def required_files : List String := ["manifest.json", "meta.json", "__init__.py"]

/-- The git listing after line stripping, dropping blank lines:
`[line.strip() for line in out.splitlines() if line.strip()]`. -/
def strippedLines (lines : List String) : List String :=
  (lines.map pyStrip).filter (fun l => !l.data.isEmpty)

/-- The per-file keep decision of the selection loop. -/
def keepPred (f : String) : Bool :=
  !(excluded_files.contains f) &&
    !(excluded_prefixes.any (fun p => pyStartswith f p))

/-- The `keep` list after the exclusion loop. -/
def keptFiles (lines : List String) : List String :=
  (strippedLines lines).filter keepPred

/-- `sorted(required - keep_set)`: the mandatory files absent from the kept
set, sorted. -/
def missingRequired (lines : List String) : List String :=
  pySorted (required_files.filter (fun r => !((keptFiles lines).contains r)))

/-- `tracked_files()`: either a fatal `SystemExit` message naming the missing
mandatory files, or the sorted deduplicated selection. -/
def tracked_files (lines : List String) : Except String (List String) :=
  if missingRequired lines ≠ [] then
    Except.error ("Missing required package files: " ++
      String.intercalate ", " (missingRequired lines))
  else
    Except.ok (pySorted (keptFiles lines).dedup)

/-- The required manifest keys, in source order. -/
def required_keys : List String :=
  ["package", "name", "mod", "conflicts",
   "min_point_version", "max_point_version", "branch_index"]

/-- The integer-typed manifest keys, in source order. -/
def int_keys : List String :=
  ["mod", "min_point_version", "max_point_version", "branch_index"]

/-- `data[k]` once presence of all required keys is established. -/
def getd (data : Manifest) (k : String) : JVal :=
  (jlookup data k).getD JVal.jnull

/-- `[key for key in required_keys if key not in data]`: the required keys
absent from the document, in declaration order. -/
def manifestMissingKeys (data : Manifest) : List String :=
  required_keys.filter (fun k => (jlookup data k).isNone)

/-- `validate_manifest()` on the parsed manifest document: the sequence of
checks of the Python validator, failing with the first violated rule. -/
def validate_manifest (data : Manifest) : Except String Unit :=
  if manifestMissingKeys data ≠ [] then
    Except.error ("manifest.json missing required keys: " ++
      String.intercalate ", " (manifestMissingKeys data))
  else if !(isinstance_str (getd data "package")) ||
      (pyStrip (strVal (getd data "package"))).data.isEmpty then
    Except.error "manifest.json: \x27package\x27 must be a non-empty string"
  else if !(isinstance_str (getd data "name")) ||
      (pyStrip (strVal (getd data "name"))).data.isEmpty then
    Except.error "manifest.json: \x27name\x27 must be a non-empty string"
  else if !(isinstance_list (getd data "conflicts")) then
    Except.error "manifest.json: \x27conflicts\x27 must be a list"
  else
    Option.elim (int_keys.find? (fun k => !(isinstance_int (getd data k))))
      (if intVal (getd data "mod") ≤ 0 then
        Except.error "manifest.json: \x27mod\x27 must be > 0"
      else if intVal (getd data "min_point_version") >
          intVal (getd data "max_point_version") then
        Except.error "manifest.json: min_point_version must be <= max_point_version"
      else
        Except.ok ())
      (fun k =>
        Except.error ("manifest.json: \x27" ++ k ++ "\x27 must be an integer"))

/-- Observable outcome of one `build(out_path)` call: whether the output
directory was created, the archive written at the output path (entry name and
bytes per entry), the success line printed, and the fatal error if any. -/
structure BuildOutcome where
  parentDirCreated : Bool
  archive : Option (List (String × List Nat))
  printed : Option String
  err : Option String
deriving Repr, DecidableEq

/-- `build(out_path)`: make the parent directory, select files, write each
selected file under its relative path, re-read the entry names, check the
mandatory entries, and print the summary. `contents` gives each source
file's bytes. -/
def build (contents : String → List Nat) (out_path : String)
    (lines : List String) : BuildOutcome :=
  match tracked_files lines with
  | Except.error e =>
    { parentDirCreated := true, archive := none, printed := none, err := some e }
  | Except.ok files =>
    match required_files.find? (fun req =>
        !(((files.map (fun rel => (rel, contents rel))).map Prod.fst).contains req)) with
    | some req =>
      { parentDirCreated := true,
        archive := some (files.map (fun rel => (rel, contents rel))),
        printed := none,
        err := some ("Generated archive is missing " ++ req) }
    | none =>
      { parentDirCreated := true,
        archive := some (files.map (fun rel => (rel, contents rel))),
        printed := some ("Created " ++ out_path ++ " (" ++
          toString files.length ++ " files)"),
        err := none }

/-- The pipeline stages, for stating the order of events in `main()`. -/
inductive Event : Type
  | validateEv : Event
  | mkdirEv : Event
  | selectEv : Event
  | writeEv : Event
  | verifyEv : Event
  | reportEv : Event
deriving Repr, DecidableEq

/-- The sequence of stages `main()` actually executes: validation first, and
only if it succeeds the build steps, stopping at the first fatal error. -/
def main_trace (data : Manifest) (lines : List String) : List Event :=
  match validate_manifest data with
  | Except.error _ => [Event.validateEv]
  | Except.ok _ =>
    match tracked_files lines with
    | Except.error _ => [Event.validateEv, Event.mkdirEv, Event.selectEv]
    | Except.ok files =>
      [Event.validateEv, Event.mkdirEv, Event.selectEv,
        Event.writeEv, Event.verifyEv] ++
        (if required_files.all (fun req => files.contains req) then
          [Event.reportEv] else [])

/-- `main()` with the default or given output path: validate the manifest,
then build; the first component is the build outcome (absent when validation
already aborted), the second the fatal error message if any. -/
def main_run (data : Manifest) (contents : String → List Nat)
    (out_path : String) (lines : List String) :
    Option BuildOutcome × Option String :=
  match validate_manifest data with
  | Except.error e => (none, some e)
  | Except.ok _ =>
    let b := build contents out_path lines
    (some b, b.err)

/-- The success condition the Python validator actually implements, as one
boolean: all keys present, strings non-empty after stripping, conflicts a
list, the four integer fields `isinstance(·, int)` (so booleans pass), the
mod value positive and the version range non-empty. -/
def pyValidManifest (data : Manifest) : Bool :=
  required_keys.all (fun k => (jlookup data k).isSome) &&
  ((isinstance_str (getd data "package") &&
    !(pyStrip (strVal (getd data "package"))).data.isEmpty) &&
  ((isinstance_str (getd data "name") &&
    !(pyStrip (strVal (getd data "name"))).data.isEmpty) &&
  (isinstance_list (getd data "conflicts") &&
  (int_keys.all (fun k => isinstance_int (getd data k)) &&
  (!(decide (intVal (getd data "mod") ≤ 0)) &&
  !(decide (intVal (getd data "min_point_version") >
      intVal (getd data "max_point_version"))))))))

/-- Modelled from the spec: §4.2 rule 5 demands the four integer fields be
strictly integer-typed. In a JSON document a boolean is not an integer, so
this spec-side type check accepts only genuine JSON integers. -/
def specIntTyped : JVal → Bool
  | JVal.jint _ => true
  | _ => false

/-- Modelled from the spec: the full constraint set of §4.2 on a manifest
document, following the spec text — required keys present, strings non-empty
after trimming, conflicts list-typed, the four integer fields strictly
integer-typed (not floating-typed, not boolean-typed), compatibility
revision strictly positive, minimum version at most maximum version. -/
def specValidManifest (data : Manifest) : Bool :=
  required_keys.all (fun k => (jlookup data k).isSome) &&
  (isinstance_str (getd data "package") &&
    !(pyStrip (strVal (getd data "package"))).data.isEmpty) &&
  (isinstance_str (getd data "name") &&
    !(pyStrip (strVal (getd data "name"))).data.isEmpty) &&
  isinstance_list (getd data "conflicts") &&
  int_keys.all (fun k => specIntTyped (getd data k)) &&
  decide (0 < intVal (getd data "mod")) &&
  decide (intVal (getd data "min_point_version") ≤
    intVal (getd data "max_point_version"))

/-- A manifest that is valid except that `mod` holds the boolean `true`. -/
def doc_mod_bool : Manifest :=
  [("package", JVal.jstr "p"), ("name", JVal.jstr "P"),
   ("mod", JVal.jbool true), ("conflicts", JVal.jlist []),
   ("min_point_version", JVal.jint 1), ("max_point_version", JVal.jint 5),
   ("branch_index", JVal.jint 0)]

/-- A fully valid manifest document. -/
def goodDoc : Manifest :=
  [("package", JVal.jstr "p"), ("name", JVal.jstr "P"),
   ("mod", JVal.jint 1), ("conflicts", JVal.jlist []),
   ("min_point_version", JVal.jint 1), ("max_point_version", JVal.jint 5),
   ("branch_index", JVal.jint 0)]

/-- A manifest missing every required key except `package`. -/
def doc_only_package : Manifest := [("package", JVal.jstr "p")]

/-- A git listing with the three mandatory files, one extra file, excluded
entries and a blank line. -/
def goodLines : List String :=
  ["manifest.json", "meta.json", "__init__.py", "style.css",
   "dist/old.zip", "tools/build_addon_package.py", ".github/ci.yml", ""]

/-- A git listing that omits `meta.json`. -/
def linesNoMeta : List String := ["manifest.json", "__init__.py"]

/-- A git listing that omits `manifest.json`. -/
def linesNoManifest : List String := ["meta.json", "__init__.py"]

/-! Helper lemmas about the embedded operations. -/

theorem mem_pySorted {a : String} {xs : List String} :
    a ∈ pySorted xs ↔ a ∈ xs :=
  List.mem_insertionSort strLeP

theorem pySorted_eq_nil_iff {xs : List String} : pySorted xs = [] ↔ xs = [] := by
  constructor
  · intro h
    have hp := List.perm_insertionSort strLeP xs
    unfold pySorted at h
    rw [h] at hp
    exact (hp.symm).eq_nil
  · intro h
    rw [h]
    rfl

theorem tracked_files_ok_iff {lines files : List String} :
    tracked_files lines = Except.ok files ↔
      missingRequired lines = [] ∧ files = pySorted (keptFiles lines).dedup := by
  unfold tracked_files
  by_cases h : missingRequired lines = []
  · simp [h, eq_comm]
  · simp [h]

theorem required_mem_kept_of_no_missing {lines : List String}
    (h : missingRequired lines = []) :
    ∀ r ∈ required_files, r ∈ keptFiles lines := by
  intro r hr
  unfold missingRequired at h
  rw [pySorted_eq_nil_iff, List.filter_eq_nil_iff] at h
  have hr2 := h r hr
  simp only [Bool.not_eq_true, Bool.not_eq_false] at hr2
  simpa using hr2

theorem tracked_files_ok_mem {lines files : List String}
    (h : tracked_files lines = Except.ok files) {f : String} :
    f ∈ files ↔ f ∈ keptFiles lines := by
  obtain ⟨-, hf⟩ := tracked_files_ok_iff.mp h
  rw [hf, mem_pySorted, List.mem_dedup]

theorem tracked_files_ok_required {lines files : List String}
    (h : tracked_files lines = Except.ok files) :
    ∀ r ∈ required_files, r ∈ files := by
  intro r hr
  obtain ⟨hm, -⟩ := tracked_files_ok_iff.mp h
  rw [tracked_files_ok_mem h]
  exact required_mem_kept_of_no_missing hm r hr

theorem tracked_files_ok_nodup {lines files : List String}
    (h : tracked_files lines = Except.ok files) : files.Nodup := by
  obtain ⟨-, hf⟩ := tracked_files_ok_iff.mp h
  rw [hf]
  exact ((List.perm_insertionSort strLeP _).symm).nodup
    (List.nodup_dedup _)

theorem tracked_files_ok_sorted {lines files : List String}
    (h : tracked_files lines = Except.ok files) : List.Sorted strLeP files := by
  obtain ⟨-, hf⟩ := tracked_files_ok_iff.mp h
  rw [hf]
  exact List.sorted_insertionSort strLeP _

theorem kept_pred_of_mem {lines : List String} {f : String}
    (h : f ∈ keptFiles lines) : keepPred f = true :=
  (List.mem_filter.mp h).2

theorem map_fst_entries (contents : String → List Nat) (l : List String) :
    (l.map (fun rel => (rel, contents rel))).map Prod.fst = l := by
  induction l with
  | nil => rfl
  | cons a t ih => simp [ih]

theorem build_verify_ok {lines files : List String}
    (contents : String → List Nat)
    (h : tracked_files lines = Except.ok files) :
    required_files.find? (fun req =>
      !(((files.map (fun rel => (rel, contents rel))).map Prod.fst).contains req)) =
      none := by
  rw [List.find?_eq_none]
  intro req hreq
  rw [map_fst_entries]
  have hmem := tracked_files_ok_required h req hreq
  simp [hmem]

/-! Theorems settling the claims. -/

/-- C4: for every input list of tracked paths, `tracked_files` either aborts
with an error naming every mandatory file absent after exclusion before any
archive is written, or returns a list that is sorted, duplicate-free and
contains the three mandatory files. -/
theorem C4_tracked_files_contract (lines : List String) :
    (missingRequired lines ≠ [] ∧
      tracked_files lines =
        Except.error ("Missing required package files: " ++
          String.intercalate ", " (missingRequired lines)) ∧
      (∀ r ∈ required_files, r ∉ keptFiles lines → r ∈ missingRequired lines)) ∨
    (∃ files, tracked_files lines = Except.ok files ∧
      List.Sorted strLeP files ∧ files.Nodup ∧
      ∀ r ∈ required_files, r ∈ files) := by
  by_cases h : missingRequired lines = []
  · right
    have hok : tracked_files lines = Except.ok (pySorted (keptFiles lines).dedup) :=
      tracked_files_ok_iff.mpr ⟨h, rfl⟩
    exact ⟨_, hok, tracked_files_ok_sorted hok, tracked_files_ok_nodup hok,
      tracked_files_ok_required hok⟩
  · left
    refine ⟨h, ?_, ?_⟩
    · unfold tracked_files
      rw [if_pos h]
    · intro r hr hnk
      unfold missingRequired
      rw [mem_pySorted, List.mem_filter]
      refine ⟨hr, ?_⟩
      simpa using hnk

/-- C4 witness: on the sample listing the selector returns a sorted,
duplicate-free list holding the three mandatory files. -/
theorem C4_tracked_files_contract_witness :
    ∃ files, tracked_files goodLines = Except.ok files ∧
      List.Sorted strLeP files ∧ files.Nodup ∧
      ∀ r ∈ required_files, r ∈ files :=
  (C4_tracked_files_contract goodLines).resolve_left (fun hl => hl.1 (by decide))

/-- C8: no path with an excluded prefix and not the packaging tool's own
source file ever appears in the selected set. -/
theorem C8_exclusions_respected {lines files : List String}
    (h : tracked_files lines = Except.ok files) :
    ∀ f ∈ files, f ∉ excluded_files ∧
      ∀ p ∈ excluded_prefixes, pyStartswith f p = false := by
  intro f hf
  have hk := kept_pred_of_mem ((tracked_files_ok_mem h).mp hf)
  unfold keepPred at hk
  rw [Bool.and_eq_true] at hk
  obtain ⟨h1, h2⟩ := hk
  constructor
  · intro hmem
    simp [hmem] at h1
  · intro p hp
    rw [Bool.not_eq_true', List.any_eq_false] at h2
    simpa using h2 p hp

/-- C8 witness: the surviving file of the sample listing is outside every
exclusion rule. -/
theorem C8_exclusions_respected_witness :
    "style.css" ∉ excluded_files ∧
      ∀ p ∈ excluded_prefixes, pyStartswith "style.css" p = false :=
  @C8_exclusions_respected goodLines
    ["__init__.py", "manifest.json", "meta.json", "style.css"]
    (by decide) "style.css" (by decide)

/-- C3 counterexample: with `manifest.json` absent from the tracked listing,
the selector does not add it back after exclusion — the run aborts instead,
and no selected set containing the manifest descriptor is produced. -/
theorem C3_no_readd_counterexample :
    "manifest.json" ∉ keptFiles linesNoManifest ∧
    tracked_files linesNoManifest =
      Except.error "Missing required package files: manifest.json" := by
  exact ⟨by decide, by decide⟩

/-- C3 amended: `tracked_files` never re-adds `manifest.json` after
exclusion. The manifest descriptor matches no exclusion rule, so it survives
exclusion exactly when it appears in the stripped tracked listing; when it is
absent the run aborts with `manifest.json` among the reported missing files
and no selected set is returned. -/
theorem C3_manifest_never_readded (lines : List String) :
    ("manifest.json" ∈ keptFiles lines ↔ "manifest.json" ∈ strippedLines lines) ∧
    ("manifest.json" ∉ keptFiles lines →
      "manifest.json" ∈ missingRequired lines ∧
      ∀ files, tracked_files lines ≠ Except.ok files) := by
  constructor
  · unfold keptFiles
    rw [List.mem_filter]
    exact ⟨fun h => h.1, fun h => ⟨h, by decide⟩⟩
  · intro hnk
    have hmem : "manifest.json" ∈ missingRequired lines := by
      unfold missingRequired
      rw [mem_pySorted, List.mem_filter]
      refine ⟨by decide, ?_⟩
      simpa using hnk
    refine ⟨hmem, fun files hok => ?_⟩
    obtain ⟨hm, -⟩ := tracked_files_ok_iff.mp hok
    rw [hm] at hmem
    simp at hmem

/-- C3 amended witness: on a listing without `manifest.json` the selector
reports it missing and returns no selected set. -/
theorem C3_manifest_never_readded_witness :
    "manifest.json" ∈ missingRequired linesNoManifest ∧
    tracked_files linesNoManifest ≠
      Except.ok ["__init__.py", "manifest.json", "meta.json"] :=
  ⟨((C3_manifest_never_readded linesNoManifest).2 (by decide)).1,
   ((C3_manifest_never_readded linesNoManifest).2 (by decide)).2 _⟩

/-- C6: a manifest document with required keys absent fails validation with a
single message naming every missing key. -/
theorem C6_missing_keys_reported (data : Manifest)
    (h : manifestMissingKeys data ≠ []) :
    validate_manifest data =
      Except.error ("manifest.json missing required keys: " ++
        String.intercalate ", " (manifestMissingKeys data)) ∧
    ∀ k ∈ required_keys, jlookup data k = none →
      k ∈ manifestMissingKeys data := by
  constructor
  · unfold validate_manifest
    rw [if_pos h]
  · intro k hk hnone
    unfold manifestMissingKeys
    rw [List.mem_filter]
    exact ⟨hk, by rw [hnone]; rfl⟩

/-- C6 witness: a document with only `package` is rejected with the message
naming the six missing keys. -/
theorem C6_missing_keys_reported_witness :
    validate_manifest doc_only_package =
      Except.error "manifest.json missing required keys: name, mod, conflicts, min_point_version, max_point_version, branch_index" ∧
    "mod" ∈ manifestMissingKeys doc_only_package :=
  ⟨(C6_missing_keys_reported doc_only_package (by decide)).1,
   (C6_missing_keys_reported doc_only_package (by decide)).2 "mod"
     (by decide) rfl⟩

/-- C9: Python's `isinstance(x, int)` accepts booleans, so a boolean in any
of the four integer fields passes the integer-type check; a document with
`mod` equal to `true` also passes the `mod > 0` check and validates. -/
theorem C9_bool_passes_int_check :
    isinstance_int (JVal.jbool true) = true ∧
    isinstance_int (JVal.jbool false) = true ∧
    int_keys.find? (fun k => !(isinstance_int (getd doc_mod_bool k))) = none ∧
    ¬(intVal (JVal.jbool true) ≤ 0) ∧
    validate_manifest doc_mod_bool = Except.ok () :=
  ⟨rfl, rfl, by decide, by decide, by decide⟩

/-- C10: `build` creates the output parent directory before file selection,
so when selection aborts the directory side effect has happened although no
archive is written; in the trace the mkdir stage precedes the selection
stage. -/
theorem C10_mkdir_before_selection (data : Manifest)
    (contents : String → List Nat) (out_path : String) (lines : List String)
    (hv : validate_manifest data = Except.ok ())
    (hs : ∃ e, tracked_files lines = Except.error e) :
    (build contents out_path lines).parentDirCreated = true ∧
    (build contents out_path lines).archive = none ∧
    main_trace data lines = [Event.validateEv, Event.mkdirEv, Event.selectEv] := by
  obtain ⟨e, he⟩ := hs
  unfold build main_trace
  rw [hv, he]
  exact ⟨rfl, rfl, rfl⟩

/-- C10 witness: with `meta.json` untracked the build aborts in selection,
yet the parent directory of the output path was already created. -/
theorem C10_mkdir_before_selection_witness :
    (build (fun _ => []) "dist/out.zip" linesNoMeta).parentDirCreated = true ∧
    (build (fun _ => []) "dist/out.zip" linesNoMeta).archive = none ∧
    main_trace goodDoc linesNoMeta =
      [Event.validateEv, Event.mkdirEv, Event.selectEv] :=
  C10_mkdir_before_selection goodDoc (fun _ => []) "dist/out.zip" linesNoMeta
    (by decide) ⟨"Missing required package files: meta.json", by decide⟩

theorem build_err (contents : String → List Nat) (out_path : String)
    {lines : List String} {e : String}
    (h : tracked_files lines = Except.error e) :
    build contents out_path lines =
      { parentDirCreated := true, archive := none, printed := none,
        err := some e } := by
  unfold build
  split
  · rename_i e' he
    rw [h] at he
    injection he with he'
    subst he'
    rfl
  · rename_i files' hf
    rw [h] at hf
    exact Except.noConfusion hf

theorem build_ok (contents : String → List Nat) (out_path : String)
    {lines files : List String}
    (h : tracked_files lines = Except.ok files) :
    build contents out_path lines =
      { parentDirCreated := true,
        archive := some (files.map (fun rel => (rel, contents rel))),
        printed := some ("Created " ++ out_path ++ " (" ++
          toString files.length ++ " files)"),
        err := none } := by
  unfold build
  split
  · rename_i e he
    rw [h] at he
    exact Except.noConfusion he
  · rename_i files' hf
    rw [h] at hf
    injection hf with hff
    subst hff
    rw [build_verify_ok contents h]

theorem main_run_invalid {data : Manifest} (contents : String → List Nat)
    (out_path : String) (lines : List String) {e : String}
    (h : validate_manifest data = Except.error e) :
    main_run data contents out_path lines = (none, some e) := by
  unfold main_run
  rw [h]

theorem main_run_valid {data : Manifest} (contents : String → List Nat)
    (out_path : String) (lines : List String)
    (h : validate_manifest data = Except.ok ()) :
    main_run data contents out_path lines =
      (some (build contents out_path lines),
        (build contents out_path lines).err) := by
  unfold main_run
  rw [h]

theorem main_trace_invalid {data : Manifest} (lines : List String) {e : String}
    (h : validate_manifest data = Except.error e) :
    main_trace data lines = [Event.validateEv] := by
  unfold main_trace
  rw [h]

theorem main_trace_sel_err {data : Manifest} {lines : List String} {e : String}
    (hv : validate_manifest data = Except.ok ())
    (he : tracked_files lines = Except.error e) :
    main_trace data lines = [Event.validateEv, Event.mkdirEv, Event.selectEv] := by
  unfold main_trace
  rw [hv, he]

theorem main_trace_ok {data : Manifest} {lines files : List String}
    (hv : validate_manifest data = Except.ok ())
    (hf : tracked_files lines = Except.ok files) :
    main_trace data lines =
      [Event.validateEv, Event.mkdirEv, Event.selectEv,
        Event.writeEv, Event.verifyEv, Event.reportEv] := by
  have hall : required_files.all (fun req => files.contains req) = true := by
    rw [List.all_eq_true]
    intro req hreq
    simpa using tracked_files_ok_required hf req hreq
  unfold main_trace
  rw [hv, hf]
  show [Event.validateEv, Event.mkdirEv, Event.selectEv, Event.writeEv,
      Event.verifyEv] ++
      (if required_files.all (fun req => files.contains req) = true then
        [Event.reportEv] else []) = _
  rw [if_pos hall]
  rfl

/-- C1: with a valid manifest and a complete tracked set, the run writes an
archive holding each selected file exactly once, named by its relative path
and carrying the source file's bytes, with the three mandatory entries
present, and prints a summary with the output path and file count. -/
theorem C1_build_complete_archive (data : Manifest)
    (contents : String → List Nat) (out_path : String)
    (lines files : List String)
    (hv : validate_manifest data = Except.ok ())
    (hs : tracked_files lines = Except.ok files) :
    main_run data contents out_path lines =
      (some { parentDirCreated := true,
              archive := some (files.map (fun rel => (rel, contents rel))),
              printed := some ("Created " ++ out_path ++ " (" ++
                toString files.length ++ " files)"),
              err := none }, none) ∧
    (∀ rel ∈ files,
      (files.map (fun r => (r, contents r))).countP (fun e => e.1 == rel) = 1 ∧
      (rel, contents rel) ∈ files.map (fun r => (r, contents r))) ∧
    (∀ req ∈ required_files,
      req ∈ (files.map (fun r => (r, contents r))).map Prod.fst) := by
  refine ⟨?_, ?_, ?_⟩
  · rw [main_run_valid contents out_path lines hv, build_ok contents out_path hs]
  · intro rel hrel
    constructor
    · rw [List.countP_map]
      have hc : ((fun e : String × List Nat => e.1 == rel) ∘
          fun r => (r, contents r)) = fun r => r == rel := rfl
      rw [hc]
      exact List.count_eq_one_of_mem (tracked_files_ok_nodup hs) hrel
    · exact List.mem_map_of_mem _ hrel
  · intro req hreq
    rw [map_fst_entries]
    exact tracked_files_ok_required hs req hreq

/-- C1 witness: the end-to-end run on the sample manifest and listing writes
the four-entry archive and prints the path and count. -/
theorem C1_build_complete_archive_witness :
    main_run goodDoc (fun _ => [1]) "dist/out.zip" goodLines =
      (some { parentDirCreated := true,
              archive := some [("__init__.py", [1]), ("manifest.json", [1]),
                ("meta.json", [1]), ("style.css", [1])],
              printed := some "Created dist/out.zip (4 files)",
              err := none }, none) :=
  (C1_build_complete_archive goodDoc (fun _ => [1]) "dist/out.zip" goodLines
    ["__init__.py", "manifest.json", "meta.json", "style.css"]
    (by decide) (by decide)).1

/-- C5: after a run, either a complete verified archive exists at the output
path or no archive was written there; a tracked set omitting `meta.json`
aborts before writing anything. -/
theorem C5_all_or_nothing (contents : String → List Nat) (out_path : String)
    (lines : List String) :
    ((build contents out_path lines).err.isSome = true →
      (build contents out_path lines).archive = none) ∧
    ((build contents out_path lines).err = none →
      ∃ files, tracked_files lines = Except.ok files ∧
        (build contents out_path lines).archive =
          some (files.map (fun rel => (rel, contents rel))) ∧
        ∀ req ∈ required_files,
          req ∈ (files.map (fun rel => (rel, contents rel))).map Prod.fst) ∧
    ("meta.json" ∉ strippedLines lines →
      (build contents out_path lines).archive = none ∧
      (build contents out_path lines).err.isSome = true) := by
  have hmeta : "meta.json" ∉ strippedLines lines →
      ∃ e, tracked_files lines = Except.error e := by
    intro hno
    cases htf : tracked_files lines with
    | error e => exact ⟨e, rfl⟩
    | ok files =>
      exfalso
      have hmem : "meta.json" ∈ keptFiles lines :=
        required_mem_kept_of_no_missing (tracked_files_ok_iff.mp htf).1
          "meta.json" (by decide)
      unfold keptFiles at hmem
      exact hno (List.mem_of_mem_filter hmem)
  cases htf : tracked_files lines with
  | error e =>
    rw [build_err contents out_path htf]
    refine ⟨fun _ => rfl, fun h => absurd h (by simp), fun _ => ⟨rfl, rfl⟩⟩
  | ok files =>
    rw [build_ok contents out_path htf]
    refine ⟨fun h => absurd h (by simp), ?_, ?_⟩
    · intro _
      refine ⟨files, rfl, rfl, ?_⟩
      intro req hreq
      rw [map_fst_entries]
      exact tracked_files_ok_required htf req hreq
    · intro hno
      obtain ⟨e, he⟩ := hmeta hno
      rw [htf] at he
      cases he

/-- C5 witness: a listing without `meta.json` produces an error and no
archive at the output path. -/
theorem C5_all_or_nothing_witness :
    (build (fun _ => []) "dist/out.zip" linesNoMeta).archive = none ∧
    (build (fun _ => []) "dist/out.zip" linesNoMeta).err.isSome = true :=
  (C5_all_or_nothing (fun _ => []) "dist/out.zip" linesNoMeta).2.2 (by decide)

/-- C7: validation runs first and an invalid manifest aborts the run before
selection and before any archive write; on the success path selection
precedes the archive write, verification follows it, and the report comes
last. -/
theorem C7_stage_order (data : Manifest) (contents : String → List Nat)
    (out_path : String) (lines : List String) :
    ((main_trace data lines).head? = some Event.validateEv) ∧
    ((∃ e, validate_manifest data = Except.error e) →
      main_trace data lines = [Event.validateEv] ∧
      Event.selectEv ∉ main_trace data lines ∧
      Event.writeEv ∉ main_trace data lines ∧
      (main_run data contents out_path lines).1 = none) ∧
    (validate_manifest data = Except.ok () →
      ∀ files, tracked_files lines = Except.ok files →
        main_trace data lines =
          [Event.validateEv, Event.mkdirEv, Event.selectEv,
            Event.writeEv, Event.verifyEv, Event.reportEv]) ∧
    (validate_manifest data = Except.ok () →
      ∀ e, tracked_files lines = Except.error e →
        main_trace data lines = [Event.validateEv, Event.mkdirEv, Event.selectEv]) := by
  refine ⟨?_, ?_, ?_, ?_⟩
  · cases hv : validate_manifest data with
    | error e => rw [main_trace_invalid lines hv]; rfl
    | ok u =>
      cases u
      cases ht : tracked_files lines with
      | error e => rw [main_trace_sel_err hv ht]; rfl
      | ok files => rw [main_trace_ok hv ht]; rfl
  · rintro ⟨e, he⟩
    rw [main_trace_invalid lines he, main_run_invalid contents out_path lines he]
    exact ⟨rfl, by decide, by decide, rfl⟩
  · intro hv files hf
    exact main_trace_ok hv hf
  · intro hv e he
    exact main_trace_sel_err hv he

/-- C7 witness: an invalid manifest stops the pipeline at validation; the
sample run executes all six stages in order; a selection failure stops the
pipeline after selection. -/
theorem C7_stage_order_witness :
    main_trace doc_only_package [] = [Event.validateEv] ∧
    main_trace goodDoc goodLines =
      [Event.validateEv, Event.mkdirEv, Event.selectEv,
        Event.writeEv, Event.verifyEv, Event.reportEv] ∧
    main_trace goodDoc linesNoMeta =
      [Event.validateEv, Event.mkdirEv, Event.selectEv] :=
  ⟨((C7_stage_order doc_only_package (fun _ => []) "o" []).2.1
      ⟨"manifest.json missing required keys: name, mod, conflicts, min_point_version, max_point_version, branch_index",
        by decide⟩).1,
   (C7_stage_order goodDoc (fun _ => []) "o" goodLines).2.2.1 (by decide)
     ["__init__.py", "manifest.json", "meta.json", "style.css"] (by decide),
   (C7_stage_order goodDoc (fun _ => []) "o" linesNoMeta).2.2.2 (by decide)
     "Missing required package files: meta.json" (by decide)⟩

theorem ite_bool_err_iff {c rest : Bool} {e : String} {E : Except String Unit}
    (hE : E = Except.ok () ↔ rest = true) :
    (if c = true then Except.error e else E) = Except.ok () ↔
      (!c && rest) = true := by
  cases c
  · simpa using hE
  · simp

theorem ite_prop_err_iff {p : Prop} [Decidable p] {e : String}
    {E : Except String Unit} {rest : Bool}
    (hE : E = Except.ok () ↔ rest = true) :
    (if p then Except.error e else E) = Except.ok () ↔
      (!(decide p) && rest) = true := by
  by_cases hp : p
  · simp [hp]
  · simp [hp, hE]

theorem ite_prop_err_ok_iff {p : Prop} [Decidable p] {e : String} :
    (if p then Except.error e else Except.ok ()) = Except.ok () ↔
      (!(decide p)) = true := by
  by_cases hp : p <;> simp [hp]

theorem find_none_err_iff {l : List String} {q : String → Bool}
    {f : String → String} {E : Except String Unit} {rest : Bool}
    (hE : E = Except.ok () ↔ rest = true) :
    Option.elim (l.find? (fun k => !(q k))) E
      (fun k => Except.error (f k)) = Except.ok () ↔
      (l.all q && rest) = true := by
  cases hf : l.find? (fun k => !(q k)) with
  | some k =>
    constructor
    · intro h
      exact Except.noConfusion h
    · intro h
      rw [Bool.and_eq_true, List.all_eq_true] at h
      have hk := List.find?_some hf
      rw [h.1 k (List.mem_of_find?_eq_some hf)] at hk
      exact absurd hk (by simp)
  | none =>
    show E = Except.ok () ↔ _
    rw [hE, Bool.and_eq_true, List.all_eq_true]
    constructor
    · intro h
      refine ⟨fun k hk => ?_, h⟩
      have hq := List.find?_eq_none.mp hf k hk
      simpa using hq
    · exact fun h => h.2

theorem missingKeys_nil_iff (data : Manifest) :
    (manifestMissingKeys data = []) ↔
      required_keys.all (fun k => (jlookup data k).isSome) = true := by
  unfold manifestMissingKeys
  rw [List.filter_eq_nil_iff, List.all_eq_true]
  constructor
  · intro h k hk
    have hh := h k hk
    cases hjk : jlookup data k with
    | none => rw [hjk] at hh; exact absurd rfl hh
    | some v => rfl
  · intro h k hk
    have hh := h k hk
    cases hjk : jlookup data k with
    | none => rw [hjk] at hh; exact Bool.noConfusion hh
    | some v => simp

/-- C2 counterexample: a manifest whose `mod` field holds the boolean `true`
is not strictly integer-typed in the words of §4.2, yet `validate_manifest`
accepts the document, so validation success is not equivalent to the §4.2
constraint set. -/
theorem C2_spec_iff_counterexample :
    validate_manifest doc_mod_bool = Except.ok () ∧
    specValidManifest doc_mod_bool = false :=
  ⟨by decide, by decide⟩

/-- C2 amended: `validate_manifest` succeeds exactly when all seven required
keys are present, `package` and `name` are strings non-empty after trimming,
`conflicts` is a list, the four integer fields pass Python's
`isinstance(·, int)` — which admits booleans as well as integers, but not
floats — the `mod` value is positive and the minimum version is at most the
maximum; otherwise it fails with a message for the violated rule. -/
theorem C2_validate_manifest_iff (data : Manifest) :
    (validate_manifest data = Except.ok () ↔ pyValidManifest data = true) ∧
    (validate_manifest data = Except.ok () ∨
      ∃ msg, validate_manifest data = Except.error msg) := by
  constructor
  · unfold validate_manifest pyValidManifest
    rw [ite_prop_err_iff (ite_bool_err_iff (ite_bool_err_iff (ite_bool_err_iff
      (find_none_err_iff (ite_prop_err_iff ite_prop_err_ok_iff)))))]
    simp only [ne_eq, decide_not, Bool.not_not, Bool.not_or, Bool.and_eq_true,
      decide_eq_true_eq]
    rw [missingKeys_nil_iff, List.all_eq_true]
  · by_cases hok : validate_manifest data = Except.ok ()
    · exact Or.inl hok
    · right
      cases hv : validate_manifest data with
      | ok u =>
        cases u
        exact absurd hv hok
      | error e => exact ⟨e, rfl⟩

/-- C2 amended witness: the sample manifest both validates and satisfies the
implemented constraint set. -/
theorem C2_validate_manifest_iff_witness : pyValidManifest goodDoc = true :=
  (C2_validate_manifest_iff goodDoc).1.mp (by decide)

end BeautifyAnki
